import Mathlib

/-!
Shallow embedding of the serverless GCP data-pipeline function
(src/function/utils.py, src/function/main.py, src/function/config.py).

External collaborators (the HTTP transport, the Firestore client, logging,
wall-clock time) are modelled as explicit parameters or omitted fields:
the fetch result is a parameter (a list of raw records), Firestore chunk
commits are a Boolean oracle indexed by chunk number, and server/client
timestamps are dropped from the document and summary models since no claim
concerns them.
-/

set_option autoImplicit false

namespace Pipeline

/-- Model of a Python value as it can appear in a JSON-decoded record.
`vBool` is kept distinct from `vInt` because Python `bool` is a subclass of
`int`, which matters for `isinstance(x, int)` checks. -/
inductive PyVal where
  | vInt (n : Int)
  | vBool (b : Bool)
  | vStr (s : String)
  | vNone
  deriving DecidableEq

/-- Python `isinstance(x, int)`: true for `int` and also for `bool`,
because `bool` derives from `int` in Python. -/
def isInstInt : PyVal → Bool
  | .vInt _ => true
  | .vBool _ => true
  | _ => false

/-- Python `isinstance(x, str)`. -/
def isInstStr : PyVal → Bool
  | .vStr _ => true
  | _ => false

/-- The string payload of a value known to be a string (junk otherwise;
only used under an `isInstStr` guard). -/
def strVal : PyVal → String
  | .vStr s => s
  | _ => ""

/-- A raw record as fetched from the API: a mapping that may or may not
carry each of the four keys the pipeline looks at. Extra keys in the
Python dict are never read by the code under model, so they are omitted. -/
structure RawRecord where
  userId : Option PyVal
  id : Option PyVal
  title : Option PyVal
  body : Option PyVal
  deriving DecidableEq

/-- Python `s.strip()` with no argument: remove leading and trailing
whitespace (modelled over the character list so that it is structurally
recursive; whitespace is `Char.isWhitespace`, the ASCII fragment of
Python's whitespace class, which covers every string the claims use). -/
def pyStrip (s : String) : String :=
  String.mk (((s.data.dropWhile Char.isWhitespace).reverse.dropWhile Char.isWhitespace).reverse)

/-- Embedding of `utils.validate_post_data`: presence of the four required keys is
checked first (in the order of the `required_fields` list), then
`isinstance(_, int)` for `userId` and `id`, then string-and-nonblank for
`title` and `body`, returning at the first failed check. -/
def validate_post_data (data : RawRecord) : Bool :=
  if data.userId.isNone then false
  else if data.id.isNone then false
  else if data.title.isNone then false
  else if data.body.isNone then false
  else if !isInstInt (data.userId.getD .vNone) then false
  else if !isInstInt (data.id.getD .vNone) then false
  else if !isInstStr (data.title.getD .vNone)
       || pyStrip (strVal (data.title.getD .vNone)) == "" then false
  else if !isInstStr (data.body.getD .vNone)
       || pyStrip (strVal (data.body.getD .vNone)) == "" then false
  else true

/-- Accumulator-based model of Python `str.split()` with no argument:
split on runs of whitespace, with no empty tokens for leading, trailing
or repeated whitespace. The accumulator holds the current token reversed. -/
def pySplitAux : List Char → List Char → List String
  | [], acc => if acc.isEmpty then [] else [String.mk acc.reverse]
  | c :: cs, acc =>
    if c.isWhitespace then
      if acc.isEmpty then pySplitAux cs []
      else String.mk acc.reverse :: pySplitAux cs []
    else pySplitAux cs (c :: acc)

/-- Python `s.split()`. -/
def pySplit (s : String) : List String :=
  pySplitAux s.data []

/-- Storage-ready document built by the transformer
(`utils.transform_post_data`). The `fetched_at` server timestamp and the
`processed_at` wall-clock timestamp of the source are external-time values
and are omitted; `source` and `status` are the source's string constants. -/
structure Document where
  user_id : PyVal
  post_id : PyVal
  title : String
  body : String
  title_length : Nat
  body_length : Nat
  word_count : Nat
  source : String
  status : String
  deriving DecidableEq

/-- Embedding of `utils.transform_post_data`. The Python function raises (`KeyError`
on a missing key, `AttributeError` when `title`/`body` is not a string)
exactly when the match falls through, which the model renders as `none`. -/
def transform_post_data (data : RawRecord) : Option Document :=
  match data.userId, data.id, data.title, data.body with
  | some u, some i, some (.vStr t), some (.vStr b) =>
    some { user_id := u
           post_id := i
           title := pyStrip t
           body := pyStrip b
           title_length := (pyStrip t).length
           body_length := (pyStrip b).length
           word_count := (pySplit (pyStrip b)).length
           source := "jsonplaceholder"
           status := "processed" }
  | _, _, _, _ => none

/-- Spec-side notion for C7: the number of maximal whitespace-delimited
tokens of a character sequence, counted by a scan that remembers whether
it is currently inside a token. -/
def tokenCount : List Char → Bool → Nat
  | [], _ => 0
  | c :: cs, inTok =>
    if c.isWhitespace then tokenCount cs false
    else (if inTok then 0 else 1) + tokenCount cs true

/-- Outcome of one call to `utils.retry_with_backoff`: a returned value,
a propagated exception, or the `raise last_exception` with
`last_exception = None` that Python turns into a `TypeError` when the
loop body never ran. -/
inductive RetryOutcome (ε α : Type) where
  | ok (a : α)
  | raised (e : ε)
  | raisedNone
  deriving DecidableEq

/-- Observable trace of one `retry_with_backoff` call: the outcome, how
many times the wrapped operation was invoked, and the sequence of sleep
durations (delays are exact rationals standing for the Python floats). -/
structure RetryTrace (ε α : Type) where
  outcome : RetryOutcome ε α
  calls : Nat
  waits : List Rat
  deriving DecidableEq

/-- The `for attempt in range(1, max_attempts + 1)` loop of
`utils.retry_with_backoff`, recursing on the number of remaining
attempts. The operation is a function of the attempt number; `caught`
models membership of the raised exception in the `exceptions` tuple: an
uncaught exception escapes the `try` at once, a caught one is retried
while attempts remain and re-raised (as `last_exception`) on the final
attempt. -/
def retryLoop {ε α : Type} (func : Nat → Except ε α) (caught : ε → Bool)
    (factor : Rat) : Nat → Nat → Rat → RetryTrace ε α
  | _, 0, _ => ⟨.raisedNone, 0, []⟩
  | attempt, remaining + 1, delay =>
    match func attempt with
    | .ok a => ⟨.ok a, 1, []⟩
    | .error e =>
      if caught e then
        if remaining = 0 then ⟨.raised e, 1, []⟩
        else
          let t := retryLoop func caught factor (attempt + 1) remaining (delay * factor)
          ⟨t.outcome, t.calls + 1, delay :: t.waits⟩
      else ⟨.raised e, 1, []⟩

/-- Embedding of `utils.retry_with_backoff`. When `max_attempts ≤ 0` the loop body
never runs, `last_exception` is still `None`, and `raise last_exception`
raises a `TypeError` without ever invoking `func` (`raisedNone`, zero
calls, no waits). -/
def retry_with_backoff {ε α : Type} (func : Nat → Except ε α) (caught : ε → Bool)
    (max_attempts : Int) (initial_delay : Rat) (backoff_factor : Rat) : RetryTrace ε α :=
  if max_attempts ≤ 0 then ⟨.raisedNone, 0, []⟩
  else retryLoop func caught backoff_factor 1 max_attempts.toNat initial_delay

/-- Fuel-driven loop behind `pyChunks`: one chunk `items[i : i + bs]` per
iteration of `for i in range(0, len(items), batch_size)`. The fuel is an
upper bound on the iteration count (the list length suffices for
`bs ≥ 1`), used only so the recursion is structural. -/
def pyChunksGo {α : Type} (bs : Nat) : Nat → List α → List (List α)
  | 0, _ => []
  | _, [] => []
  | fuel + 1, x :: xs =>
    ((x :: xs).take bs) :: pyChunksGo bs fuel ((x :: xs).drop bs)

/-- The chunking performed by `for i in range(0, len(items), batch_size)`
with `items[i : i + batch_size]` in `utils.batch_write_to_firestore`.
A zero step is a Python `ValueError`; the model is only meaningful for
`batch_size ≥ 1`, which is all the claims concern. -/
def pyChunks {α : Type} (bs : Nat) (items : List α) : List (List α) :=
  pyChunksGo bs items.length items

instance {ε α : Type} [DecidableEq ε] [DecidableEq α] : DecidableEq (Except ε α) := fun x y =>
  match x, y with
  | .ok a, .ok b =>
    if h : a = b then isTrue (by rw [h]) else isFalse (by intro hc; cases hc; exact h rfl)
  | .error a, .error b =>
    if h : a = b then isTrue (by rw [h]) else isFalse (by intro hc; cases hc; exact h rfl)
  | .ok _, .error _ => isFalse (by intro hc; cases hc)
  | .error _, .ok _ => isFalse (by intro hc; cases hc)

/-- Result of one `batch_write_to_firestore` call: the returned count or
the propagated commit exception, together with the value of the local
`total_written` counter at the moment the function returned or raised,
and the number of chunk commits that were attempted. -/
structure BatchWriteResult where
  result : Except Unit Nat
  written : Nat
  attempted : Nat
  deriving DecidableEq

/-- The chunk loop of `utils.batch_write_to_firestore` over an already
chunked list. `commitOk` is the Firestore oracle: whether the commit of
the chunk with the given index succeeds. On a failed commit the exception
is re-raised (`raise`), so no later chunk is attempted and the chunk's
count is not added to `total_written`. -/
def batchLoop (commitOk : Nat → Bool) : Nat → Nat → List (List Document) → BatchWriteResult
  | _, acc, [] => ⟨.ok acc, acc, 0⟩
  | idx, acc, c :: cs =>
    if commitOk idx then
      let r := batchLoop commitOk (idx + 1) (acc + c.length) cs
      ⟨r.result, r.written, r.attempted + 1⟩
    else ⟨.error (), acc, 1⟩

/-- Embedding of `utils.batch_write_to_firestore`. -/
def batch_write_to_firestore (commitOk : Nat → Bool) (items : List Document)
    (batch_size : Nat) : BatchWriteResult :=
  batchLoop commitOk 0 0 (pyChunks batch_size items)

/-- The execution summary of `utils.get_execution_summary`. The
`execution_time` / `start_time` / `end_time` wall-clock fields are
external-time values and are omitted from the model. -/
structure ExecutionSummary where
  items_fetched : Nat
  items_processed : Nat
  items_stored : Nat
  success_rate : Rat
  errors_count : Nat
  errors : List String
  status : String
  deriving DecidableEq

/-- Embedding of `utils.get_execution_summary` (minus the timing fields). -/
def get_execution_summary (total_fetched total_processed total_stored : Nat)
    (errors : List String) : ExecutionSummary :=
  { items_fetched := total_fetched
    items_processed := total_processed
    items_stored := total_stored
    success_rate := if total_fetched > 0 then (total_stored : Rat) / (total_fetched : Rat) * 100 else 0
    errors_count := errors.length
    errors := errors.take 10
    status :=
      if total_stored > 0 && errors.length == 0 then "success"
      else if total_stored > 0 then "partial"
      else "failed" }

namespace Config

/-- Value of `config.Config.MAX_ITEMS_TO_PROCESS` (hard-coded 10). -/
def MAX_ITEMS_TO_PROCESS : Nat := 10

/-- Value of `config.Config.BATCH_SIZE` (hard-coded 5). -/
def BATCH_SIZE : Nat := 5

end Config

/-- What `main.process_data` produces: its return value (the transformed
documents) together with its local `errors` list, which the source
accumulates, logs and then discards (it is not part of the return value). -/
structure ProcessResult where
  processed_items : List Document
  errors : List String
  deriving DecidableEq

/-- The `for idx, item in enumerate(items_to_process, 1)` loop of
`main.process_data`. A record failing validation contributes
`"Item {idx}: Validation failed"`; a record whose transform raises
contributes `"Item {idx}: Processing error - {str(e)}"` (the exception
text is abstracted to a fixed marker). -/
def processLoop : Nat → List RawRecord → ProcessResult
  | _, [] => ⟨[], []⟩
  | idx, item :: rest =>
    if validate_post_data item then
      match transform_post_data item with
      | some doc =>
        let r := processLoop (idx + 1) rest
        ⟨doc :: r.processed_items, r.errors⟩
      | none =>
        let r := processLoop (idx + 1) rest
        ⟨r.processed_items,
         ("Item " ++ toString idx ++ ": Processing error - exception") :: r.errors⟩
    else
      let r := processLoop (idx + 1) rest
      ⟨r.processed_items, ("Item " ++ toString idx ++ ": Validation failed") :: r.errors⟩

/-- Embedding of `main.process_data`: truncate to `max_items` records
(`raw_data[:Config.MAX_ITEMS_TO_PROCESS]` in the source, taken here as a
parameter) and run the per-record loop, 1-based. -/
def process_data (raw_data : List RawRecord) (max_items : Nat) : ProcessResult :=
  processLoop 1 (raw_data.take max_items)

/-- Embedding of `main.store_data_in_firestore`: empty input returns 0 without
touching Firestore; otherwise delegates to `batch_write_to_firestore`
with `Config.BATCH_SIZE` and re-raises its exception. -/
def store_data_in_firestore (commitOk : Nat → Bool) (items : List Document) : Except Unit Nat :=
  if items.isEmpty then .ok 0
  else (batch_write_to_firestore commitOk items Config.BATCH_SIZE).result

/-- The `(payload, status_code)` pair returned by `main.main`: either the
execution summary with HTTP 200, or the fallback failure payload with
HTTP 500 when a pipeline stage raised. -/
inductive MainOutcome where
  | ok (summary : ExecutionSummary) (code : Nat)
  | failed (code : Nat)
  deriving DecidableEq

/-- The fetch-succeeded path of `main.main`: the fetched records are a
parameter (fetch itself is the retry-wrapped HTTP call), `commitOk` is
the Firestore commit oracle. Note that the source initialises a local
`errors = []` in `main` and passes that very list — to which nothing is
ever appended — to `get_execution_summary`; the errors collected inside
`process_data` stay local to `process_data`. -/
def main_run (commitOk : Nat → Bool) (raw_data : List RawRecord) : MainOutcome :=
  let errors : List String := []
  let processed := process_data raw_data Config.MAX_ITEMS_TO_PROCESS
  match store_data_in_firestore commitOk processed.processed_items with
  | .ok stored_count =>
    .ok (get_execution_summary raw_data.length processed.processed_items.length
          stored_count errors) 200
  | .error _ => .failed 500

/-- The Python exception classes that can escape `make_request` inside
`main.fetch_data_from_api`: the plain `Exception` raised by
`handle_rate_limit` on a 429, `requests.HTTPError` from
`raise_for_status` on another non-2xx status, other
`requests.RequestException` subclasses from `requests.get`, and the
`JSONDecodeError` from `response.json()`. -/
inductive ExcClass where
  | exception
  | requestException
  | httpError
  | jsonDecodeError
  deriving DecidableEq

/-- Python subclass relation on the classes above: every one of them
derives from `Exception`; `HTTPError` and `JSONDecodeError` derive from
`RequestException`. -/
def isSubclass : ExcClass → ExcClass → Bool
  | _, .exception => true
  | .requestException, .requestException => true
  | .httpError, .requestException => true
  | .httpError, .httpError => true
  | .jsonDecodeError, .requestException => true
  | .jsonDecodeError, .jsonDecodeError => true
  | _, _ => false

/-- The `exceptions=(requests.RequestException, Exception)` tuple passed
to `retry_with_backoff` by `main.fetch_data_from_api`. -/
def fetch_retry_exceptions : List ExcClass :=
  [.requestException, .exception]

/-- Python `except tuple` matching: the raised exception is caught when
it is an instance of some class in the tuple. -/
def caughtByTuple (tuple : List ExcClass) (c : ExcClass) : Bool :=
  tuple.any (fun t => isSubclass c t)

/-- Embedding of `utils.handle_rate_limit` as a function of the response status code:
a 429 raises a plain `Exception` mentioning `Retry-After`; any other
4xx/5xx status makes `raise_for_status` raise `requests.HTTPError`;
otherwise it returns normally. -/
def handle_rate_limit (status_code : Nat) : Except ExcClass Unit :=
  if status_code == 429 then .error .exception
  else if 400 ≤ status_code && status_code < 600 then .error .httpError
  else .ok ()

/-- A valid raw record used in the concrete C1 run. -/
def sampleValid (i : Nat) : RawRecord :=
  ⟨some (.vInt i), some (.vInt i), some (.vStr "Valid title"), some (.vStr "Valid body text")⟩

/-- An invalid raw record (whitespace-only title) used in the concrete C1 run. -/
def sampleInvalid : RawRecord :=
  ⟨some (.vInt 0), some (.vInt 0), some (.vStr "   "), some (.vStr "some body")⟩

/-- Twenty-five fetched records with the records at 1-based positions 2, 5 and 9
invalid — the orchestrator scenario of the spec. -/
def sampleRaw : List RawRecord :=
  (List.range 25).map (fun i => if i = 1 ∨ i = 4 ∨ i = 8 then sampleInvalid else sampleValid i)

/-- The raw record of the spec's validator/transformer example. -/
def exampleRaw : RawRecord :=
  ⟨some (.vInt 1), some (.vInt 1), some (.vStr "  A  "), some (.vStr "hello world")⟩

/-- A concrete document for batch-writer scenarios. -/
def sampleDoc : Document :=
  ⟨.vInt 0, .vInt 0, "t", "b", 1, 1, 1, "jsonplaceholder", "processed"⟩

end Pipeline

namespace Pipeline

/-! ### Helper lemmas -/

lemma pySplitAux_length (cs : List Char) : ∀ acc : List Char,
    (pySplitAux cs acc).length
      = tokenCount cs (!acc.isEmpty) + (if acc.isEmpty then 0 else 1) := by
  induction cs with
  | nil =>
    intro acc
    by_cases h : acc.isEmpty <;> simp [pySplitAux, tokenCount, h]
  | cons c cs ih =>
    intro acc
    by_cases hw : c.isWhitespace
    · by_cases h : acc.isEmpty <;> simp [pySplitAux, tokenCount, hw, h, ih []] <;> omega
    · have h2 := ih (c :: acc)
      by_cases h : acc.isEmpty <;> simp_all [pySplitAux, tokenCount, hw, h] <;> omega

lemma pySplit_length (s : String) : (pySplit s).length = tokenCount s.data false := by
  simpa using pySplitAux_length s.data []

lemma pyChunksGo_join {α : Type} (bs : Nat) (hbs : 1 ≤ bs) :
    ∀ (fuel : Nat) (items : List α), items.length ≤ fuel →
      (pyChunksGo bs fuel items).join = items := by
  intro fuel
  induction fuel with
  | zero =>
    intro items h
    have : items = [] := List.eq_nil_of_length_eq_zero (Nat.le_zero.mp h)
    simp [this, pyChunksGo]
  | succ n ih =>
    intro items h
    cases items with
    | nil => simp [pyChunksGo]
    | cons x xs =>
      have hlen : ((x :: xs).drop bs).length ≤ n := by
        simp only [List.length_drop, List.length_cons] at *
        omega
      simp [pyChunksGo, ih _ hlen]

lemma pyChunksGo_sizes {α : Type} (bs : Nat) :
    ∀ (fuel : Nat) (items : List α) (c : List α),
      c ∈ pyChunksGo bs fuel items → c.length ≤ bs := by
  intro fuel
  induction fuel with
  | zero => intro items c hc; simp [pyChunksGo] at hc
  | succ n ih =>
    intro items c hc
    cases items with
    | nil => simp [pyChunksGo] at hc
    | cons x xs =>
      simp only [pyChunksGo, List.mem_cons] at hc
      rcases hc with rfl | hc
      · simp [List.length_take]
      · exact ih _ _ hc

lemma batchLoop_fail (commitOk : Nat → Bool) :
    ∀ (cs : List (List Document)) (idx acc k : Nat),
      (∀ j, j < k → commitOk (idx + j) = true) → commitOk (idx + k) = false →
      k < cs.length →
      batchLoop commitOk idx acc cs
        = ⟨.error (), acc + ((cs.take k).map List.length).sum, k + 1⟩ := by
  intro cs
  induction cs with
  | nil => intro idx acc k _ _ hk; simp at hk
  | cons c cs ih =>
    intro idx acc k hlt hk hklen
    cases k with
    | zero =>
      have h0 : commitOk idx = false := by simpa using hk
      simp [batchLoop, h0]
    | succ k =>
      have h0 : commitOk idx = true := by simpa using hlt 0 (Nat.succ_pos k)
      have hshift : ∀ j, j < k → commitOk (idx + 1 + j) = true := by
        intro j hj
        have := hlt (j + 1) (Nat.succ_lt_succ hj)
        have harith : idx + (j + 1) = idx + 1 + j := by omega
        rwa [harith] at this
      have hk2 : commitOk (idx + 1 + k) = false := by
        have harith : idx + (k + 1) = idx + 1 + k := by omega
        rwa [harith] at hk
      have hlen2 : k < cs.length := by simpa using hklen
      have hrec := ih (idx + 1) (acc + c.length) k hshift hk2 hlen2
      simp [batchLoop, h0, hrec, List.take_cons]
      omega

lemma processLoop_spec (l : List RawRecord) : ∀ idx : Nat,
    (processLoop idx l).processed_items
        = l.filterMap (fun r => if validate_post_data r then transform_post_data r else none) ∧
    (processLoop idx l).errors.length + (processLoop idx l).processed_items.length
      = l.length := by
  induction l with
  | nil => intro idx; simp [processLoop]
  | cons r rest ih =>
    intro idx
    have h1 := (ih (idx + 1)).1
    have h2 := (ih (idx + 1)).2
    rw [h1] at h2
    by_cases hv : validate_post_data r
    · cases htr : transform_post_data r with
      | some doc =>
        simp [processLoop, hv, htr, h1]
        omega
      | none =>
        simp [processLoop, hv, htr, h1]
        omega
    · simp [processLoop, hv, h1]
      omega

lemma validate_shape (d : RawRecord) (h : validate_post_data d = true) :
    ∃ u i t b, d.userId = some u ∧ d.id = some i ∧
      d.title = some (PyVal.vStr t) ∧ d.body = some (PyVal.vStr b) ∧
      pyStrip t ≠ "" ∧ pyStrip b ≠ "" := by
  unfold validate_post_data at h
  split_ifs at h with h1 h2 h3 h4 h5 h6 h7 h8
  have h1e : d.userId ≠ none := fun hh => h1 (by simp [hh])
  have h2e : d.id ≠ none := fun hh => h2 (by simp [hh])
  have h3e : d.title ≠ none := fun hh => h3 (by simp [hh])
  have h4e : d.body ≠ none := fun hh => h4 (by simp [hh])
  obtain ⟨u, hu⟩ := Option.ne_none_iff_exists.mp h1e
  obtain ⟨i, hi⟩ := Option.ne_none_iff_exists.mp h2e
  obtain ⟨t, htt⟩ := Option.ne_none_iff_exists.mp h3e
  obtain ⟨b, hbb⟩ := Option.ne_none_iff_exists.mp h4e
  rw [← htt] at h7
  rw [← hbb] at h8
  simp only [Option.getD_some, Bool.or_eq_true, Bool.not_eq_true', beq_iff_eq, not_or] at h7 h8
  push_neg at h7 h8
  cases t with
  | vStr ts =>
    cases b with
    | vStr bs =>
      exact ⟨u, i, ts, bs, hu.symm, hi.symm, htt.symm, hbb.symm,
        by simpa [strVal] using h7.2, by simpa [strVal] using h8.2⟩
    | vInt n => exact absurd h8.1 (by simp [isInstStr])
    | vBool bb => exact absurd h8.1 (by simp [isInstStr])
    | vNone => exact absurd h8.1 (by simp [isInstStr])
  | vInt n => exact absurd h7.1 (by simp [isInstStr])
  | vBool bb => exact absurd h7.1 (by simp [isInstStr])
  | vNone => exact absurd h7.1 (by simp [isInstStr])

lemma retryLoop_succ {ε α : Type} (func : Nat → Except ε α) (caught : ε → Bool)
    (factor : Rat) (attempt remaining : Nat) (delay : Rat) :
    retryLoop func caught factor attempt (remaining + 1) delay =
      match func attempt with
      | .ok a => ⟨.ok a, 1, []⟩
      | .error e =>
        if caught e then
          if remaining = 0 then ⟨.raised e, 1, []⟩
          else
            let t := retryLoop func caught factor (attempt + 1) remaining (delay * factor)
            ⟨t.outcome, t.calls + 1, delay :: t.waits⟩
        else ⟨.raised e, 1, []⟩ := rfl

lemma retryLoop_calls_exhaust {ε α : Type} (func : Nat → Except ε α) (caught : ε → Bool)
    (factor : Rat) (herr : ∀ n, ∃ e, func n = .error e ∧ caught e = true) :
    ∀ (remaining attempt : Nat) (delay : Rat),
      (retryLoop func caught factor attempt remaining delay).calls = remaining := by
  intro remaining
  induction remaining with
  | zero => intro attempt delay; simp [retryLoop]
  | succ n ih =>
    intro attempt delay
    obtain ⟨e, he, hc⟩ := herr attempt
    rw [retryLoop_succ, he]
    cases n with
    | zero => simp [hc]
    | succ m => simp [hc, ih]

end Pipeline

namespace Pipeline

/-! ### Claim theorems -/

/-- C1: the claim states that per-record validation/transform failures are
recorded as error strings in the execution summary's error list, and that a
run with stored > 0 and such errors has status `partial`. On the concrete
scenario of the claim — 25 fetched records, 3 invalid among the first 10,
all commits succeeding — the code does produce the 3 error strings inside
`process_data`, but that list is local to `process_data` and is dropped;
`main` passes its own never-appended `errors = []` to
`get_execution_summary`, so the summary carries no errors, `errors_count`
0, and status `success` instead of `partial`. -/
theorem main_run_drops_per_record_errors :
    (process_data sampleRaw Config.MAX_ITEMS_TO_PROCESS).errors.length = 3 ∧
    main_run (fun _ => true) sampleRaw = .ok (get_execution_summary 25 7 7 []) 200 ∧
    (get_execution_summary 25 7 7 []).errors = [] ∧
    (get_execution_summary 25 7 7 []).errors_count = 0 ∧
    (get_execution_summary 25 7 7 []).items_stored = 7 ∧
    (get_execution_summary 25 7 7 []).status = "success" ∧
    (get_execution_summary 25 7 7 []).success_rate = 28 := by
  refine ⟨by decide, rfl, rfl, rfl, rfl, rfl, ?_⟩
  norm_num [get_execution_summary]

/-- C2 counterexample: the claim says `validate` returns false when
`userId` is a boolean, but Python's `isinstance(True, int)` holds (`bool`
subclasses `int`), so the validator accepts a record whose `userId` is
`True`. -/
theorem validate_post_data_accepts_boolean_id :
    validate_post_data ⟨some (PyVal.vBool true), some (PyVal.vInt 1),
      some (PyVal.vStr "t"), some (PyVal.vStr "b")⟩ = true := by
  decide

/-- C2 (amended): `validate` returns true exactly when all four keys are
present, `userId` and `id` are instances of `int` in Python's sense
(actual ints or booleans; numeric strings rejected), and `title` and
`body` are strings that are non-empty after stripping whitespace. -/
theorem validate_post_data_characterization (d : RawRecord) :
    validate_post_data d = true ↔
      (d.userId.isSome = true ∧ d.id.isSome = true ∧
       d.title.isSome = true ∧ d.body.isSome = true ∧
       isInstInt (d.userId.getD .vNone) = true ∧ isInstInt (d.id.getD .vNone) = true ∧
       isInstStr (d.title.getD .vNone) = true ∧ pyStrip (strVal (d.title.getD .vNone)) ≠ "" ∧
       isInstStr (d.body.getD .vNone) = true ∧ pyStrip (strVal (d.body.getD .vNone)) ≠ "") := by
  unfold validate_post_data
  split_ifs with h1 h2 h3 h4 h5 h6 h7 h8
  all_goals
    simp_all [Option.isNone_iff_eq_none, Option.isSome_iff_ne_none,
      Bool.not_eq_true', Bool.not_eq_true]
  · intro ht1 ht2 hb1
    rcases h7 with h | h <;> simp_all
  · intro hb1
    rcases h8 with h | h <;> simp_all

/-- C3: for `maxAttempts ≤ 0` the retry wrapper fails fast — the loop body
never runs, the wrapped operation is never invoked (zero calls, zero
waits), and the call raises immediately (in Python, `raise last_exception`
with `last_exception = None`, a `TypeError`). -/
theorem retry_with_backoff_nonpositive_attempts {ε α : Type}
    (func : Nat → Except ε α) (caught : ε → Bool)
    (max_attempts : Int) (d f : Rat) (h : max_attempts ≤ 0) :
    retry_with_backoff func caught max_attempts d f = ⟨.raisedNone, 0, []⟩ := by
  simp [retry_with_backoff, h]

/-- Witness for C3 at `max_attempts = 0`. -/
theorem retry_with_backoff_nonpositive_attempts_witness :
    (0 : Int) ≤ 0 ∧
    retry_with_backoff (fun _ => (Except.ok 5 : Except Unit Nat)) (fun _ => true) 0 2 2
      = ⟨.raisedNone, 0, []⟩ :=
  ⟨le_refl 0,
   retry_with_backoff_nonpositive_attempts (fun _ => (Except.ok 5 : Except Unit Nat))
     (fun _ => true) 0 2 2 (le_refl 0)⟩

/-- C4: with `maxAttempts = 3`, an operation that fails retryably on
attempts 1 and 2 and succeeds on attempt 3 yields the success result after
exactly 3 invocations and exactly 2 waits, the first of `initialDelay` and
the second of `initialDelay × backoffFactor`; an operation that always
fails retryably makes exactly 3 invocations, waits the same 2 delays, and
propagates the last failure. -/
theorem retry_with_backoff_three_attempt_trace {ε α : Type}
    (caught : ε → Bool) (d f : Rat) :
    (∀ (func : Nat → Except ε α) (e1 e2 : ε) (a : α),
      caught e1 = true → caught e2 = true →
      func 1 = .error e1 → func 2 = .error e2 → func 3 = .ok a →
      retry_with_backoff func caught 3 d f = ⟨.ok a, 3, [d, d * f]⟩) ∧
    (∀ (func : Nat → Except ε α) (es : Nat → ε),
      (∀ n, func n = .error (es n)) → (∀ n, caught (es n) = true) →
      retry_with_backoff func caught 3 d f = ⟨.raised (es 3), 3, [d, d * f]⟩) := by
  constructor
  · intro func e1 e2 a hc1 hc2 h1 h2 h3
    simp [retry_with_backoff, retryLoop, h1, h2, h3, hc1, hc2]
  · intro func es hf hc
    simp [retry_with_backoff, retryLoop, hf, hc]

/-- Witness for C4: fail-fail-succeed returns `7` with waits `[2, 4]`;
always-fail raises the last failure with the same trace. -/
theorem retry_with_backoff_three_attempt_trace_witness :
    retry_with_backoff (fun n => if n < 3 then (Except.error "fail" : Except String Nat)
        else Except.ok 7) (fun _ => true) 3 2 2
      = ⟨.ok 7, 3, [2, 2 * 2]⟩ ∧
    retry_with_backoff (fun _ => (Except.error "boom" : Except String Nat))
        (fun _ => true) 3 2 2
      = ⟨.raised "boom", 3, [2, 2 * 2]⟩ := by
  constructor
  · exact (retry_with_backoff_three_attempt_trace (fun _ => true) 2 2).1
      (fun n => if n < 3 then Except.error "fail" else Except.ok 7) "fail" "fail" 7
      rfl rfl (by decide) (by decide) (by decide)
  · exact (retry_with_backoff_three_attempt_trace (fun _ => true) 2 2).2
      (fun _ => Except.error "boom") (fun _ => "boom") (fun _ => rfl) (fun _ => rfl)

/-- C5: for `batchSize ≥ 1` the batch writer partitions the documents into
consecutive chunks of at most `batchSize` whose concatenation is the input;
if the commit of chunk `k` (0-based) fails after all earlier commits
succeeded, the call raises, `total_written` credits exactly the sizes of
the chunks before `k` (no credit for the failing chunk), and exactly
`k + 1` chunk commits were attempted (no later chunk is tried). -/
theorem batch_write_chunks_and_fail_fast (items : List Document) (bs : Nat)
    (hbs : 1 ≤ bs) (commitOk : Nat → Bool) (k : Nat)
    (hok : ∀ j, j < k → commitOk j = true) (hfail : commitOk k = false)
    (hk : k < (pyChunks bs items).length) :
    (pyChunks bs items).join = items ∧
    (∀ c ∈ pyChunks bs items, c.length ≤ bs) ∧
    batch_write_to_firestore commitOk items bs
      = ⟨.error (), (((pyChunks bs items).take k).map List.length).sum, k + 1⟩ := by
  refine ⟨pyChunksGo_join bs hbs items.length items le_rfl, ?_, ?_⟩
  · intro c hc
    exact pyChunksGo_sizes bs items.length items c hc
  · have h := batchLoop_fail commitOk (pyChunks bs items) 0 0 k
      (fun j hj => by simpa using hok j hj) (by simpa using hfail) hk
    simpa [batch_write_to_firestore] using h

/-- Witness for C5: 12 documents with `batchSize = 5` chunk as sizes
`[5, 5, 2]`; failing the second chunk's commit credits 5 documents and
attempts only 2 chunks, raising the error. -/
theorem batch_write_chunks_and_fail_fast_witness :
    (pyChunks 5 (List.replicate 12 sampleDoc)).map List.length = [5, 5, 2] ∧
    batch_write_to_firestore (fun j => j != 1) (List.replicate 12 sampleDoc) 5
      = ⟨.error (), 5, 2⟩ := by
  constructor
  · decide
  · have h := (batch_write_chunks_and_fail_fast (List.replicate 12 sampleDoc) 5
      (by norm_num) (fun j => j != 1) 1
      (fun j hj => by interval_cases j; rfl) rfl (by decide)).2.2
    exact h.trans (by decide)

/-- C6: the summary's `success_rate` is `stored / fetched × 100` (0 when
`fetched = 0`); status is `success` iff stored > 0 with no errors,
`partial` iff stored > 0 with errors, `failed` iff stored = 0; and a run
that fetched 0 records produces the all-zero summary with status
`failed`. -/
theorem get_execution_summary_rate_and_status (f p s : Nat) (errs : List String) :
    (get_execution_summary f p s errs).success_rate
        = (if f = 0 then 0 else (s : Rat) / (f : Rat) * 100) ∧
    ((get_execution_summary f p s errs).status = "success" ↔ 0 < s ∧ errs = []) ∧
    ((get_execution_summary f p s errs).status = "partial" ↔ 0 < s ∧ errs ≠ []) ∧
    ((get_execution_summary f p s errs).status = "failed" ↔ s = 0) ∧
    (∀ commitOk : Nat → Bool,
      main_run commitOk []
        = .ok { items_fetched := 0, items_processed := 0, items_stored := 0,
                success_rate := 0, errors_count := 0, errors := [],
                status := "failed" } 200) := by
  refine ⟨?_, ?_, ?_, ?_, fun commitOk => rfl⟩
  · rcases Nat.eq_zero_or_pos f with hf | hf
    · simp [get_execution_summary, hf]
    · have hne : f ≠ 0 := Nat.pos_iff_ne_zero.mp hf
      simp [get_execution_summary, hf, hne]
  all_goals
    rcases Nat.eq_zero_or_pos s with hs | hs <;>
      cases errs <;>
        simp [get_execution_summary, hs, String.ext_iff]
  all_goals omega

/-- C7: for every record that passes validation, the transform produces a
document whose `title`/`body` are the stripped input strings, whose
`title_length`/`body_length` are the character counts of those stripped
strings, and whose `word_count` is the number of maximal
whitespace-delimited tokens of the stripped body (`tokenCount`, which is 0
on the empty string). -/
theorem transform_post_data_trimmed_fields (d : RawRecord)
    (h : validate_post_data d = true) :
    ∃ (t b : String) (doc : Document),
      d.title = some (PyVal.vStr t) ∧ d.body = some (PyVal.vStr b) ∧
      transform_post_data d = some doc ∧
      doc.title = pyStrip t ∧ doc.body = pyStrip b ∧
      doc.title_length = doc.title.length ∧ doc.body_length = doc.body.length ∧
      doc.word_count = tokenCount doc.body.data false ∧
      tokenCount ("" : String).data false = 0 := by
  obtain ⟨u, i, t, b, hu, hi, ht, hb, -, -⟩ := validate_shape d h
  refine ⟨t, b,
    { user_id := u, post_id := i, title := pyStrip t, body := pyStrip b,
      title_length := (pyStrip t).length, body_length := (pyStrip b).length,
      word_count := (pySplit (pyStrip b)).length,
      source := "jsonplaceholder", status := "processed" },
    ht, hb, ?_, rfl, rfl, rfl, rfl, ?_, rfl⟩
  · simp [transform_post_data, hu, hi, ht, hb]
  · exact pySplit_length (pyStrip b)

/-- Witness for C7 at the spec's example record
`{userId: 1, id: 1, title: "  A  ", body: "hello world"}`. -/
theorem transform_post_data_trimmed_fields_witness :
    validate_post_data exampleRaw = true ∧
    ∃ doc, transform_post_data exampleRaw = some doc ∧
      doc.title = "A" ∧ doc.title_length = 1 ∧
      doc.body_length = 11 ∧ doc.word_count = 2 := by
  refine ⟨by decide, ?_⟩
  obtain ⟨t, b, doc, ht, hb, htr, h1, h2, h3, h4, h5, h6⟩ :=
    transform_post_data_trimmed_fields exampleRaw (by decide)
  have ht2 : t = "  A  " := by
    have hx := ht
    simp [exampleRaw] at hx
    exact hx.symm
  have hb2 : b = "hello world" := by
    have hx := hb
    simp [exampleRaw] at hx
    exact hx.symm
  subst ht2
  subst hb2
  refine ⟨doc, htr, ?_, ?_, ?_, ?_⟩
  · rw [h1]; decide
  · rw [h3, h1]; decide
  · rw [h4, h2]; decide
  · rw [h5, h2]; decide

/-- C8: only the first `MAX_ITEMS_TO_PROCESS` fetched records enter
validation/transform (processing a list equals processing its
`MAX_ITEMS_TO_PROCESS`-prefix); the output documents are exactly the
transforms of the records of that prefix that pass validation, in order
(and validation guarantees the transform succeeds); and each processed
record yields exactly one of a document or an error entry, so records
beyond the cap contribute no error entries. -/
theorem process_data_cap_and_order (raw : List RawRecord) :
    process_data raw Config.MAX_ITEMS_TO_PROCESS
        = process_data (raw.take Config.MAX_ITEMS_TO_PROCESS) Config.MAX_ITEMS_TO_PROCESS ∧
    (process_data raw Config.MAX_ITEMS_TO_PROCESS).processed_items
        = (raw.take Config.MAX_ITEMS_TO_PROCESS).filterMap
            (fun r => if validate_post_data r then transform_post_data r else none) ∧
    (∀ r, validate_post_data r = true → (transform_post_data r).isSome = true) ∧
    (process_data raw Config.MAX_ITEMS_TO_PROCESS).errors.length
        + (process_data raw Config.MAX_ITEMS_TO_PROCESS).processed_items.length
      = (raw.take Config.MAX_ITEMS_TO_PROCESS).length := by
  refine ⟨?_, (processLoop_spec _ 1).1, ?_, (processLoop_spec _ 1).2⟩
  · unfold process_data
    rw [List.take_take]
    simp
  · intro r hr
    obtain ⟨u, i, t, b, hu, hi, ht, hb, -, -⟩ := validate_shape r hr
    simp [transform_post_data, hu, hi, ht, hb]

/-- C9: the summary's `errors` field is the first `min(10, length)`
entries of the input error list (`errors[:10]`), while `errors_count` is
the full, uncapped length. -/
theorem get_execution_summary_errors_capped (f p s : Nat) (errs : List String) :
    (get_execution_summary f p s errs).errors = errs.take 10 ∧
    (get_execution_summary f p s errs).errors_count = errs.length :=
  ⟨rfl, rfl⟩

/-- C10: every exception class that can escape the fetch's `make_request`
— the rate-limit `Exception` and `HTTPError` from `handle_rate_limit`
included — is matched by the `(requests.RequestException, Exception)`
tuple, since that tuple contains the base `Exception`; hence no fetch
failure propagates through the non-retryable path, and an always-failing
fetch is invoked exactly `max_attempts` times. -/
theorem fetch_failures_all_retryable :
    (∀ c : ExcClass, caughtByTuple fetch_retry_exceptions c = true) ∧
    (∀ sc : Nat, ∀ e : ExcClass, handle_rate_limit sc = .error e →
      caughtByTuple fetch_retry_exceptions e = true) ∧
    (∀ {α : Type} (es : Nat → ExcClass) (ma : Int) (d f : Rat), 1 ≤ ma →
      (retry_with_backoff (fun n => (Except.error (es n) : Except ExcClass α))
          (caughtByTuple fetch_retry_exceptions) ma d f).calls = ma.toNat) := by
  have hall : ∀ c : ExcClass, caughtByTuple fetch_retry_exceptions c = true := by
    intro c
    cases c <;> rfl
  refine ⟨hall, fun sc e _ => hall e, ?_⟩
  intro α es ma d f hma
  unfold retry_with_backoff
  rw [if_neg (by omega)]
  exact retryLoop_calls_exhaust (fun n => Except.error (es n))
    (caughtByTuple fetch_retry_exceptions) f (fun n => ⟨es n, rfl, hall (es n)⟩)
    ma.toNat 1 d

/-- Witness for C10: an always-`HTTPError` fetch under the source's
exception tuple with `max_attempts = 3` is invoked exactly 3 times. -/
theorem fetch_failures_all_retryable_witness :
    (1 : Int) ≤ 3 ∧
    (retry_with_backoff (fun _ => (Except.error ExcClass.httpError : Except ExcClass Nat))
        (caughtByTuple fetch_retry_exceptions) 3 2 2).calls = (3 : Int).toNat :=
  ⟨by norm_num,
   fetch_failures_all_retryable.2.2 (fun _ => ExcClass.httpError) 3 2 2 (by norm_num)⟩

end Pipeline

namespace Pipeline

/-- Witness for C2's amended characterization at a concrete record. -/
theorem validate_post_data_characterization_witness :
    validate_post_data ⟨some (PyVal.vInt 1), some (PyVal.vInt 1),
      some (PyVal.vStr " t "), some (PyVal.vStr "b")⟩ = true :=
  (validate_post_data_characterization
      ⟨some (PyVal.vInt 1), some (PyVal.vInt 1),
       some (PyVal.vStr " t "), some (PyVal.vStr "b")⟩).mpr
    ⟨rfl, rfl, rfl, rfl, rfl, rfl, rfl, by decide, rfl, by decide⟩

/-- Witness for C6 at a concrete summary: 7 stored out of 25 fetched with
no errors is a `success` with rate 28. -/
theorem get_execution_summary_rate_and_status_witness :
    (get_execution_summary 25 7 7 []).status = "success" ∧
    (get_execution_summary 25 7 7 []).success_rate = 28 := by
  have h := get_execution_summary_rate_and_status 25 7 7 []
  refine ⟨h.2.1.mpr ⟨by norm_num, rfl⟩, ?_⟩
  rw [h.1]
  norm_num

/-- Witness for C8's inner implication at a concrete valid record. -/
theorem process_data_cap_and_order_witness :
    validate_post_data (sampleValid 0) = true ∧
    (transform_post_data (sampleValid 0)).isSome = true :=
  ⟨by decide, (process_data_cap_and_order []).2.2.1 (sampleValid 0) (by decide)⟩

end Pipeline
